import Mathlib

/-!
Verification of the GenAI SOW Architect application (`src/agent.py`).

Python strings are modelled as `List Char` (a Python `str` is a sequence of
code points); Python dicts coming from JSON are modelled as association
lists with insertion-order semantics; the network and the clock are
modelled explicitly so that the retry loop, the sleep pattern and the
number of issued requests become provable facts.
-/

/-- A Python string: a sequence of unicode code points. -/
abbrev Str := List Char

/-- The characters removed by Python `str.strip()` (the ASCII whitespace
characters; the application only ever strips model output and code fences,
which contain no exotic unicode whitespace). -/
def pyIsSpace (c : Char) : Bool :=
  c = ' ' || c = '\t' || c = '\n' || c = '\r' || c = '\x0b' || c = '\x0c'

/-- Left part of Python `str.strip()`. -/
def pyLstrip (s : Str) : Str := s.dropWhile pyIsSpace

/-- Right part of Python `str.strip()`. -/
def pyRstrip (s : Str) : Str := (s.reverse.dropWhile pyIsSpace).reverse

/-- Python `str.strip()`: removes leading and trailing whitespace. -/
def pystrip (s : Str) : Str := pyRstrip (pyLstrip s)

/-- Python `str.startswith(pre)`. -/
def pyStartsWith (s pre : Str) : Bool := pre.isPrefixOf s

/-- Python `str.endswith(suf)`. -/
def pyEndsWith (s suf : Str) : Bool := suf.reverse.isPrefixOf s.reverse

/-- Python `text[n:]`. -/
def pyDrop (s : Str) (n : Nat) : Str := s.drop n

/-- Python `text[:-n]` (for `n ≥ 1`; on a string shorter than `n` it
yields the empty string, as in Python). -/
def pyDropRight (s : Str) (n : Nat) : Str := (s.reverse.drop n).reverse

/-- Python `text[:n]`. -/
def pyTake (s : Str) (n : Nat) : Str := s.take n

/-- The leading-fence step of `clean_json_string` (`src/agent.py` lines
73-76): drop 7 characters after a \x60\x60\x60json marker, else 3 after a
bare \x60\x60\x60 marker. -/
def cleanLeadingFence (t : Str) : Str :=
  if pyStartsWith t "```json".data then pyDrop t 7
  else if pyStartsWith t "```".data then pyDrop t 3
  else t

/-- The trailing-fence step of `clean_json_string` (`src/agent.py` lines
77-78): drop the last 3 characters when the text ends with \x60\x60\x60. -/
def cleanTrailingFence (t : Str) : Str :=
  if pyEndsWith t "```".data then pyDropRight t 3 else t

/-- Function `clean_json_string` from `src/agent.py` (lines 70-79): strips the
string, removes a leading \x60\x60\x60json or \x60\x60\x60 fence marker and a
trailing \x60\x60\x60 fence marker, and strips again. -/
def clean_json_string (text : Str) : Str :=
  pystrip (cleanTrailingFence (cleanLeadingFence (pystrip text)))

/-- A JSON value, as produced by the Python `json` library
(`json.loads`).  Numbers are modelled as integers: the application's
schemas request strings, arrays and objects, and the two numeric fields
it consumes are integral counters. -/
inductive Json where
  | null : Json
  | bool (b : Bool) : Json
  | num (n : Int) : Json
  | str (s : Str) : Json
  | arr (elems : List Json) : Json
  | obj (fields : List (Str × Json)) : Json
deriving Repr

/-- A Python dict mapping strings to JSON values, in insertion order. -/
abbrev Dict := List (Str × Json)

/-- Python dict lookup (`d[k]` / `d.get(k)` without default): the fields
list of a dict holds each key at most once, so first match is the value. -/
def dictGet : Dict → Str → Option Json
  | [], _ => none
  | (k0, v0) :: rest, k => if k = k0 then some v0 else dictGet rest k

/-- Python dict assignment `d[k] = v`: replaces the value in place if the
key is present, otherwise appends the binding at the end. -/
def dictInsert : Dict → Str → Json → Dict
  | [], k, v => [(k, v)]
  | (k0, v0) :: rest, k, v =>
    if k = k0 then (k0, v) :: rest else (k0, v0) :: dictInsert rest k v

/-- Python `d.update(src)` (`src/agent.py` line 196 etc.): assigns every
binding of `src` into `d`, left to right. -/
def dictUpdate (d : Dict) (src : List (Str × Json)) : Dict :=
  src.foldl (fun acc kv => dictInsert acc kv.1 kv.2) d

/-- The keys of a phase result are pairwise distinct (true of every
Python dict, hence of every `json.loads` result). -/
def keysNodup (src : List (Str × Json)) : Prop := (src.map Prod.fst).Nodup

instance (src : List (Str × Json)) : Decidable (keysNodup src) := by
  unfold keysNodup; infer_instance

/-- Python truthiness of an optional JSON value (`if res:` in the
orchestrator): `None`, `False`, `0`, `""`, `[]` and `{}` are falsy. -/
def pyTruthy : Option Json → Bool
  | none => false
  | some .null => false
  | some (.bool b) => b
  | some (.num n) => n != 0
  | some (.str s) => !s.isEmpty
  | some (.arr l) => !l.isEmpty
  | some (.obj l) => !l.isEmpty

/-- Is the value a JSON object? -/
def isObj : Json → Bool
  | .obj _ => true
  | _ => false

/-- JSON structural whitespace accepted between tokens by `json.loads`. -/
def jsonWs (c : Char) : Bool := c = ' ' || c = '\t' || c = '\n' || c = '\r'

/-- Skip JSON whitespace. -/
def skipWs (s : Str) : Str := s.dropWhile jsonWs

/-- Value of a hexadecimal digit, if any. -/
def hexVal (c : Char) : Option Nat :=
  if '0' ≤ c ∧ c ≤ '9' then some (c.toNat - '0'.toNat)
  else if 'a' ≤ c ∧ c ≤ 'f' then some (c.toNat - 'a'.toNat + 10)
  else if 'A' ≤ c ∧ c ≤ 'F' then some (c.toNat - 'A'.toNat + 10)
  else none

/-- Body of a JSON string literal, after the opening quote: returns the
decoded characters and the rest of the input after the closing quote.
Standard escapes and `\uXXXX` are decoded; raw control characters are
rejected, as in `json.loads`. -/
def parseStringBody : Nat → Str → Option (Str × Str)
  | 0, _ => none
  | _ + 1, [] => none
  | f + 1, c :: rest =>
    if c = '"' then some ([], rest)
    else if c = '\\' then
      match rest with
      | 'n' :: r => (parseStringBody f r).map (fun p => ('\n' :: p.1, p.2))
      | 't' :: r => (parseStringBody f r).map (fun p => ('\t' :: p.1, p.2))
      | 'r' :: r => (parseStringBody f r).map (fun p => ('\r' :: p.1, p.2))
      | 'b' :: r => (parseStringBody f r).map (fun p => ('\x08' :: p.1, p.2))
      | 'f' :: r => (parseStringBody f r).map (fun p => ('\x0c' :: p.1, p.2))
      | '"' :: r => (parseStringBody f r).map (fun p => ('"' :: p.1, p.2))
      | '\\' :: r => (parseStringBody f r).map (fun p => ('\\' :: p.1, p.2))
      | '/' :: r => (parseStringBody f r).map (fun p => ('/' :: p.1, p.2))
      | 'u' :: a :: b :: c2 :: d :: r =>
        match hexVal a, hexVal b, hexVal c2, hexVal d with
        | some ha, some hb, some hc, some hd =>
          let n := ((ha * 16 + hb) * 16 + hc) * 16 + hd
          (parseStringBody f r).map (fun p => (Char.ofNat n :: p.1, p.2))
        | _, _, _, _ => none
      | _ => none
    else if c.toNat < 32 then none
    else (parseStringBody f rest).map (fun p => (c :: p.1, p.2))

/-- Digits of a JSON number. -/
def parseDigits : Nat → Str → Nat → Option (Nat × Str)
  | 0, _, _ => none
  | _ + 1, [], acc => some (acc, [])
  | f + 1, c :: rest, acc =>
    if '0' ≤ c ∧ c ≤ '9' then parseDigits f rest (acc * 10 + (c.toNat - '0'.toNat))
    else some (acc, c :: rest)

mutual

/-- One JSON value (after leading whitespace), returning the remaining
input.  Together with `jsonLoads` this is an executable model of the
Python `json` library's `loads` on the fragment this application
exchanges with the endpoint: objects, arrays, strings, integers,
booleans and null.  (Numbers with fractional or exponent parts decode to
Python floats and are outside the model.) -/
def parseValue : Nat → Str → Option (Json × Str)
  | 0, _ => none
  | f + 1, s =>
    match skipWs s with
    | [] => none
    | c :: rest =>
      if c = '{' then
        match skipWs rest with
        | '}' :: r2 => some (.obj [], r2)
        | r2 => parseMembers f r2 []
      else if c = '[' then
        match skipWs rest with
        | ']' :: r2 => some (.arr [], r2)
        | r2 => parseElems f r2 []
      else if c = '"' then
        (parseStringBody (f + 1) rest).map (fun p => (.str p.1, p.2))
      else if c = '-' then
        match rest with
        | d :: r2 =>
          if '0' ≤ d ∧ d ≤ '9' then
            (parseDigits (f + 1) r2 (d.toNat - '0'.toNat)).map
              (fun p => (.num (-(p.1 : Int)), p.2))
          else none
        | [] => none
      else if '0' ≤ c ∧ c ≤ '9' then
        (parseDigits (f + 1) rest (c.toNat - '0'.toNat)).map
          (fun p => (.num (p.1 : Int), p.2))
      else if pyStartsWith (c :: rest) "true".data then some (.bool true, rest.drop 3)
      else if pyStartsWith (c :: rest) "false".data then some (.bool false, rest.drop 4)
      else if pyStartsWith (c :: rest) "null".data then some (.null, rest.drop 3)
      else none

/-- Members of a JSON object, before the first key of each round; a
repeated key overwrites the earlier binding, as in `json.loads`. -/
def parseMembers : Nat → Str → List (Str × Json) → Option (Json × Str)
  | 0, _, _ => none
  | f + 1, s, acc =>
    match skipWs s with
    | '"' :: rest =>
      match parseStringBody (f + 1) rest with
      | none => none
      | some (key, r2) =>
        match skipWs r2 with
        | ':' :: r3 =>
          match parseValue f r3 with
          | none => none
          | some (v, r4) =>
            match skipWs r4 with
            | ',' :: r5 => parseMembers f r5 (acc ++ [(key, v)])
            | '}' :: r5 => some (.obj (dictUpdate [] (acc ++ [(key, v)])), r5)
            | _ => none
        | _ => none
    | _ => none

/-- Elements of a JSON array. -/
def parseElems : Nat → Str → List Json → Option (Json × Str)
  | 0, _, _ => none
  | f + 1, s, acc =>
    match parseValue f s with
    | none => none
    | some (v, r) =>
      match skipWs r with
      | ',' :: r2 => parseElems f r2 (acc ++ [v])
      | ']' :: r2 => some (.arr (acc ++ [v]), r2)
      | _ => none

end

/-- Model of Python `json.loads`: parses one JSON value and requires the
whole input to be consumed (anything but trailing whitespace is an
error); `none` models the raised `json.JSONDecodeError`. -/
def jsonLoads (s : Str) : Option Json :=
  match parseValue (s.length + 1) s with
  | some (v, rest) => if skipWs rest = [] then some v else none
  | none => none

/-- The exception classes that matter to the inner handler of
`call_gemini_json`: `IndexError` is caught there (together with
`json.JSONDecodeError`, which the text-parsing step reports through
`Option`); every other exception (`AttributeError`, `TypeError`,
`KeyError`, ...) escapes to the outer handler and causes a retry. -/
inductive PyExc where
  | indexError : PyExc
  | otherError : PyExc
deriving Repr, DecidableEq

/-- Python `v.get(key, dflt)`: dict lookup with default; calling `.get`
on a non-dict raises `AttributeError` (modelled `otherError`). -/
def pyGetDefault (v : Json) (key : Str) (dflt : Json) : Except PyExc Json :=
  match v with
  | .obj fs => .ok ((dictGet fs key).getD dflt)
  | _ => .error .otherError

/-- Python `v[0]`: yields the head of a list or the first character of a
string, raises `IndexError` when they are empty, and raises `TypeError`
or `KeyError` (both modelled `otherError`, both uncaught by the inner
handler) on every other value. -/
def pyIndex0 : Json → Except PyExc Json
  | .arr [] => .error .indexError
  | .arr (x :: _) => .ok x
  | .str [] => .error .indexError
  | .str (c :: _) => .ok (.str [c])
  | _ => .error .otherError

/-- The payload-extraction expression of `call_gemini_json`
(`src/agent.py` line 107):

`result.get('candidates', [\x7b\x7d])[0].get('content', \x7b\x7d).get('parts', [\x7b\x7d])[0].get('text', "\x7b\x7d")`

A missing `text` key yields the default string `"\x7b\x7d"`.  A non-string
`text` value is reported as `otherError`: the subsequent
`clean_json_string(text_content)` would call `.strip()` on it and raise
`AttributeError`, which the inner handler does not catch. -/
def extract_text (result : Json) : Except PyExc Str := do
  let candidates ← pyGetDefault result "candidates".data (.arr [.obj []])
  let c0 ← pyIndex0 candidates
  let content ← pyGetDefault c0 "content".data (.obj [])
  let parts ← pyGetDefault content "parts".data (.arr [.obj []])
  let p0 ← pyIndex0 parts
  let textv ← pyGetDefault p0 "text".data (.str "\x7b\x7d".data)
  match textv with
  | .str s => pure s
  | _ => .error .otherError

/-- Outcome of one `requests.post` call, as seen by `call_gemini_json`:
the post may raise (invalid URL, connection failure, timeout), or return
a response with a status code and a body; `body = none` models a body
on which `response.json()` raises (not valid JSON). -/
inductive Attempt where
  | raise : Attempt
  | resp (status : Nat) (body : Option Json) : Attempt

/-- What one loop iteration of `call_gemini_json` does: either the
function returns (`done r`), or it sleeps one second and retries
(`retry`). -/
inductive AttemptOutcome where
  | done (r : Option Json) : AttemptOutcome
  | retry : AttemptOutcome

/-- One iteration of the retry loop of `call_gemini_json`
(`src/agent.py` lines 101-118), for a given model `loads` of
`json.loads`:

* the post raised → outer handler → sleep and retry;
* non-200 status → log, sleep and retry;
* 200 with a body `response.json()` cannot parse → the raised error
  escapes to the outer handler → sleep and retry;
* 200, extraction hits `IndexError` → inner handler → return `None`;
* 200, extraction raises anything else → outer handler → sleep, retry;
* 200, text extracted, `json.loads` fails → inner handler → `None`;
* 200, text extracted and parsed → return the parsed value. -/
def attemptResult (loads : Str → Option Json) : Attempt → AttemptOutcome
  | .raise => .retry
  | .resp status body =>
    if status = 200 then
      match body with
      | none => .retry
      | some result =>
        match extract_text result with
        | .ok t =>
          match loads (clean_json_string t) with
          | some v => .done (some v)
          | none => .done none
        | .error .indexError => .done none
        | .error .otherError => .retry
    else .retry

/-- Observable events of one `call_gemini_json` call: an issued (or
attempted) HTTP post, and a `time.sleep(1)` of one second. -/
inductive Ev where
  | post : Ev
  | sleep : Ev
deriving Repr, DecidableEq

/-- The `for i in range(3)` loop of `call_gemini_json`: `fuel` is the
number of remaining iterations, `i` the index of the next attempt in the
network oracle `net`.  Returns the function result and the event trace. -/
def runAttempts (loads : Str → Option Json) (net : Nat → Attempt) :
    Nat → Nat → Option Json × List Ev
  | _, 0 => (none, [])
  | i, fuel + 1 =>
    match attemptResult loads (net i) with
    | .done r => (r, [Ev.post])
    | .retry =>
      let rest := runAttempts loads net (i + 1) fuel
      (rest.1, Ev.post :: Ev.sleep :: rest.2)

/-- Function `call_gemini_json` from `src/agent.py` (lines 81-120), for a model
`loads` of `json.loads` and a network oracle `net` giving the outcome of
each successive `requests.post`.  A falsy credential (`None` or the
empty string, both modelled as `[]`) returns `None` with no network
activity; otherwise up to 3 attempts are made.  The prompt, schema and
system instruction only flow into the request payload and do not affect
control flow, so they are not parameters of the model. -/
def call_gemini_json (loads : Str → Option Json) (api_key : Str)
    (net : Nat → Attempt) : Option Json × List Ev :=
  if api_key = [] then (none, [])
  else runAttempts loads net 0 3

/-- Constant `GEMINI_MODEL` from `src/agent.py` line 19. -/
def GEMINI_MODEL : Str := "gemini-2.0-flash-exp".data

/-- The URL string built by `call_gemini_json` (`src/agent.py` line 88),
verbatim: the base URL was pasted wrapped in a markdown link
`[text](target)`, so the f-string produces a bracketed markdown link
followed by the model name, not an https URL. -/
def url (api_key : Str) : Str :=
  "[https://generativelanguage.googleapis.com/v1beta/models/](https://generativelanguage.googleapis.com/v1beta/models/)".data
    ++ GEMINI_MODEL ++ ":generateContent?key=".data ++ api_key

/-- Modelled from the spec: the generation endpoint is an "HTTP POST to
a fixed base URL templated with a model identifier and an API-key query
parameter", i.e. `https://.../v1beta/models/(model):generateContent?key=(api_key)`.
This is the URL the code comment ("Strictly cleaned URL string") intends. -/
def spec_url (api_key : Str) : Str :=
  "https://generativelanguage.googleapis.com/v1beta/models/".data
    ++ GEMINI_MODEL ++ ":generateContent?key=".data ++ api_key

/-- The credential fallback chain of the sidebar (`src/agent.py` lines
138-141): the explicit input, else `GEMINI_API_KEY`, else
`GOOGLE_API_KEY` (each environment read defaulting to the empty
string). -/
def resolve_api_key (api_key_input gemini_env google_env : Str) : Str :=
  let k := if api_key_input = [] then gemini_env else api_key_input
  if k = [] then google_env else k

/-- One phase of the orchestrator (`src/agent.py` lines 194-197 and the
five analogous blocks): state is `(generated_sow, session store)`; when
the phase result is truthy it is merged into the running draft with
`dict.update` and the merged draft is immediately committed to the
session store.  (A truthy non-dict result would raise in `update` and
abort generation through the top-level handler, leaving the store at its
last committed value; no schema-conforming result takes that shape.) -/
def phaseStep (state : Dict × Dict) (res : Option Json) : Dict × Dict :=
  if pyTruthy res then
    match res with
    | some (.obj fs) =>
      let g := dictUpdate state.1 fs
      (g, g)
    | _ => state
  else state

/-- The six sequential phases of `generated_sow` (`src/agent.py` lines
184-276): the running draft starts as a copy of the session store and
each phase result is folded in by `phaseStep`.  Returns the final
`(generated_sow, session store)`. -/
def runPhases (init : Dict) (results : List (Option Json)) : Dict × Dict :=
  results.foldl phaseStep (init, init)

/-- The typographic-character substitutions of `clean_text_pdf`
(`src/agent.py` line 65): en/em dash, curly quotes and bullet glyphs
become plain ASCII.  Every replaced character is a single character, so
the sequence of `str.replace` calls acts characterwise. -/
def substituteChar (c : Char) : Char :=
  if c = '–' then '-'
  else if c = '—' then '-'
  else if c = '‘' then '\x27'
  else if c = '’' then '\x27'
  else if c = '“' then '"'
  else if c = '”' then '"'
  else if c = '●' then '-'
  else if c = '•' then '-'
  else c

/-- Python `text.encode('latin-1', 'replace').decode('latin-1')`: characters
outside the single-byte range become the fallback marker `?`. -/
def latin1Replace (c : Char) : Char := if c.toNat ≤ 255 then c else '?'

/-- Function `clean_text_pdf` from `src/agent.py` (lines 62-67), on strings (the
renderer only ever passes strings; the `str(text)` branch for non-string
input is not modelled). -/
def clean_text_pdf (t : Str) : Str := t.map (fun c => latin1Replace (substituteChar c))

/-- One stakeholder row of the export tab (`updated_stakeholders`). -/
structure Stakeholder where
  name : Str
  title : Str
  email : Str

/-- One timeline row of the export tab (`final_timeline`). -/
structure TimelineRow where
  phase : Str
  task : Str
  weeks : Str

/-- The finalized field set consumed by both renderers of Tab 6: the
draft merged with all user edits, exactly the variables interpolated
into `html_content` and read by `create_pdf`. -/
structure SowFields where
  sol_type : Str
  customer_name : Str
  final_objective : Str
  updated_stakeholders : List Stakeholder
  deps_text : Str
  assump_text : Str
  final_sc_text : Str
  final_timeline : List TimelineRow
  compute : Str
  storage : Str
  ml_services : Str
  ui_layer : Str
  ownership : Str
  n_users : Int
  n_reqs : Int

/-- One `<tr>` of the stakeholders table of the markup renderer
(`src/agent.py` line 413): the three fields are interpolated whole,
without truncation. -/
def html_stakeholder_row (s : Stakeholder) : Str :=
  "<tr><td>".data ++ s.name ++ "</td><td>".data ++ s.title
    ++ "</td><td>".data ++ s.email ++ "</td></tr>".data

/-- One `<tr>` of the timeline table of the markup renderer
(`src/agent.py` line 438). -/
def html_timeline_row (t : TimelineRow) : Str :=
  "<tr><td>".data ++ t.phase ++ "</td><td>".data ++ t.task
    ++ "</td><td>".data ++ t.weeks ++ "</td></tr>".data

/-- Python `str.splitlines()` on the text of the edit areas (whose line
terminator is `\n`). -/
def splitLinesAux : Str → Str → List Str
  | [], acc => [acc.reverse]
  | c :: rest, acc =>
    if c = '\n' then acc.reverse :: splitLinesAux rest []
    else splitLinesAux rest (c :: acc)

/-- Python `str.splitlines()`: the empty string yields no lines, and a
trailing terminator does not produce a final empty line. -/
def pySplitlines (s : Str) : List Str :=
  if s = [] then []
  else
    let ps := splitLinesAux s []
    if ps.getLast? = some [] then ps.dropLast else ps

/-- The bullet-list assembly of the markup renderer (`src/agent.py`
lines 421 and 425): one `<li>` per non-blank line of the free-text
field. -/
def bulletItems (text : Str) : Str :=
  (((pySplitlines text).filter (fun d => !(pystrip d).isEmpty)).map
    (fun d => "<li>".data ++ d ++ "</li>".data)).flatten

/-- Python `final_sc_text.replace(chr(10), '<br>')` (`src/agent.py` line 431). -/
def scHtml (t : Str) : Str :=
  (t.map (fun c => if c = '\n' then "<br>".data else [c])).flatten

/-- Python `str(n)` for the two integer usage fields. -/
def intStr (n : Int) : Str := (toString n).data

/-- Literal chunk 1 of the `html_content` template. -/
def htmlC1 : Str :=
  "\n    <html xmlns:o=\x27urn:schemas-microsoft-com:office:office\x27 xmlns:w=\x27urn:schemas-microsoft-com:office:word\x27 xmlns=\x27[http://www.w3.org/TR/REC-html40](http://www.w3.org/TR/REC-html40)\x27>\n    <head><title>Statement of Work</title>\n    <style>\n        body \x7b font-family: \x27Arial\x27, sans-serif; line-height: 1.6; \x7d\n        table \x7b border-collapse: collapse; width: 100%; margin-bottom: 20px; \x7d\n        th, td \x7b border: 1px solid #000; padding: 10px; text-align: left; \x7d\n        th \x7b background-color: #f2f2f2; \x7d\n        h1 \x7b font-size: 24pt; color: #232f3e; border-bottom: 2px solid #232f3e; padding-bottom: 10px; \x7d\n        h2 \x7b font-size: 18pt; color: #232f3e; margin-top: 30px; \x7d\n        h3 \x7b font-size: 14pt; color: #444; margin-top: 20px; \x7d\n        ul \x7b margin-bottom: 15px; \x7d\n        li \x7b margin-bottom: 5px; \x7d\n    </style>\n    </head>\n    <body>\n    \n    <h1>Statement of Work: ".data

/-- Literal chunk 2 of the `html_content` template. -/
def htmlC2 : Str :=
  "</h1>\n    <p><strong>Customer:</strong> ".data

/-- Literal chunk 3 of the `html_content` template. -/
def htmlC3 : Str :=
  "</p>\n    <p><strong>Date:</strong> ".data

/-- Literal chunk 4 of the `html_content` template. -/
def htmlC4 : Str :=
  "</p>\n    <hr>\n    \n    <h2>1. PROJECT OVERVIEW</h2>\n    <h3>1.1 OBJECTIVE</h3>\n    <p>".data

/-- Literal chunk 5 of the `html_content` template. -/
def htmlC5 : Str :=
  "</p>\n    \n    <h3>1.2 STAKEHOLDERS</h3>\n    <table>\n        <tr><th>Name</th><th>Title</th><th>Contact/Email</th></tr>\n        ".data

/-- Literal chunk 6 of the `html_content` template. -/
def htmlC6 : Str :=
  "\n    </table>\n    \n    <h3>1.3 ASSUMPTIONS & DEPENDENCIES</h3>\n    <table style=\"border: none;\">\n    <tr>\n    <td style=\"border: none; vertical-align: top; width: 50%;\">\n        <h4>Dependencies</h4>\n        <ul>".data

/-- Literal chunk 7 of the `html_content` template. -/
def htmlC7 : Str :=
  "</ul>\n    </td>\n    <td style=\"border: none; vertical-align: top; width: 50%;\">\n        <h4>Assumptions</h4>\n        <ul>".data

/-- Literal chunk 8 of the `html_content` template. -/
def htmlC8 : Str :=
  "</ul>\n    </td>\n    </tr>\n    </table>\n    \n    <h3>1.4 PoC SUCCESS CRITERIA</h3>\n    <div style=\"white-space: pre-wrap;\">".data

/-- Literal chunk 9 of the `html_content` template. -/
def htmlC9 : Str :=
  "</div>\n    \n    <h2>2. SCOPE OF WORK & TIMELINES</h2>\n    \n    <h3>Development Timelines</h3>\n    <table>\n        <tr><th>Phase</th><th>Task</th><th>Weeks</th></tr>\n        ".data

/-- Literal chunk 10 of the `html_content` template. -/
def htmlC10 : Str :=
  "\n    </table>\n    \n    <h2>3. ARCHITECTURE</h2>\n    <ul>\n        <li><strong>Compute:</strong> ".data

/-- Literal chunk 11 of the `html_content` template. -/
def htmlC11 : Str :=
  "</li>\n        <li><strong>Storage:</strong> ".data

/-- Literal chunk 12 of the `html_content` template. -/
def htmlC12 : Str :=
  "</li>\n        <li><strong>ML Services:</strong> ".data

/-- Literal chunk 13 of the `html_content` template. -/
def htmlC13 : Str :=
  "</li>\n        <li><strong>UI Layer:</strong> ".data

/-- Literal chunk 14 of the `html_content` template. -/
def htmlC14 : Str :=
  "</li>\n    </ul>\n    \n    <h2>4. RESOURCES</h2>\n    <p><strong>Ownership:</strong> ".data

/-- Literal chunk 15 of the `html_content` template. -/
def htmlC15 : Str :=
  "</p>\n    <p><strong>Estimates:</strong> ".data

/-- Literal chunk 16 of the `html_content` template. -/
def htmlC16 : Str :=
  " users, ".data

/-- Literal chunk 17 of the `html_content` template. -/
def htmlC17 : Str :=
  " requests/day</p>\n    \n    </body></html>\n    ".data

/-- The markup (HTML/Word) renderer: the `html_content` f-string of
`src/agent.py` (lines 384-454), with the current date
(`datetime.now().strftime('%Y-%m-%d')`) made an explicit input.  Literal
braces of the CSS (written `\x7b\x7b` in the f-string) and the quotes of
the template appear verbatim; the mangled markdown-link `xmlns`
attribute of the source is reproduced as is. -/
def html_content (fs : SowFields) (today : Str) : Str :=
  htmlC1 ++ fs.sol_type ++ htmlC2 ++ fs.customer_name ++ htmlC3 ++ today ++ htmlC4
  ++ fs.final_objective ++ htmlC5
  ++ (fs.updated_stakeholders.map html_stakeholder_row).flatten ++ htmlC6
  ++ bulletItems fs.deps_text ++ htmlC7 ++ bulletItems fs.assump_text ++ htmlC8
  ++ scHtml fs.final_sc_text ++ htmlC9
  ++ (fs.final_timeline.map html_timeline_row).flatten ++ htmlC10
  ++ fs.compute ++ htmlC11 ++ fs.storage ++ htmlC12 ++ fs.ml_services ++ htmlC13
  ++ fs.ui_layer ++ htmlC14 ++ fs.ownership ++ htmlC15 ++ intStr fs.n_users
  ++ htmlC16 ++ intStr fs.n_reqs ++ htmlC17

/-- One drawing command of the paginated (FPDF) renderer.  The command
sequence is the drawn content of the document; the byte serialization of
the artifact additionally embeds file metadata — notably a creation
timestamp taken from the clock — modelled by `pdf_output`. -/
inductive PdfOp where
  | setFont (family : Str) (style : Str) (size : Nat) : PdfOp
  | cell (w : Nat) (h : Nat) (txt : Str) : PdfOp
  | multiCell (w : Nat) (h : Nat) (txt : Str) : PdfOp
  | ln (h : Nat) : PdfOp
  | chapterTitle (txt : Str) : PdfOp

/-- The three stakeholder cells drawn per row by `create_pdf`
(`src/agent.py` lines 485-488): each field is truncated to its first 35
characters and normalized with `clean_text_pdf`; the column widths are
`[60, 60, 60]`. -/
def pdf_stakeholder_row (s : Stakeholder) : List PdfOp :=
  [.cell 60 7 (clean_text_pdf (pyTake s.name 35)),
   .cell 60 7 (clean_text_pdf (pyTake s.title 35)),
   .cell 60 7 (clean_text_pdf (pyTake s.email 35))]

/-- The three timeline cells drawn per row by `create_pdf`
(`src/agent.py` lines 505-508): phase truncated to 15, task to 70,
weeks to 5 characters; column widths `[30, 130, 20]`. -/
def pdf_timeline_row (t : TimelineRow) : List PdfOp :=
  [.cell 30 7 (clean_text_pdf (pyTake t.phase 15)),
   .cell 130 7 (clean_text_pdf (pyTake t.task 70)),
   .cell 20 7 (clean_text_pdf (pyTake t.weeks 5))]

/-- The drawing code of the paginated renderer: `create_pdf` from
`src/agent.py` (lines 471-509), as its sequence of drawing commands.
The drawing code reads the same field set as the markup renderer and
never reads the current date (the `_today` input is taken only to
exhibit that independence).  The byte serialization of line 510
(`pdf.output(dest='S')`) is a separate step, modelled by `pdf_output`,
and is NOT date-independent: it stamps a creation timestamp. -/
def create_pdf (fs : SowFields) (_today : Str) : List PdfOp :=
  [.chapterTitle "1. PROJECT OVERVIEW".data,
   .setFont "Arial".data "B".data 11, .cell 0 8 "1.1 OBJECTIVE".data,
   .setFont "Arial".data "".data 10,
   .multiCell 0 5 (clean_text_pdf fs.final_objective), .ln 5,
   .setFont "Arial".data "B".data 11, .cell 0 8 "1.2 STAKEHOLDERS".data,
   .setFont "Arial".data "B".data 9,
   .cell 60 7 "Name".data, .cell 60 7 "Title".data, .cell 60 7 "Contact/Email".data,
   .setFont "Arial".data "".data 9]
  ++ (fs.updated_stakeholders.map pdf_stakeholder_row).flatten
  ++ [.ln 5, .chapterTitle "2. SCOPE OF WORK".data,
      .setFont "Arial".data "B".data 10, .cell 0 6 "2.1 ARCHITECTURE".data,
      .setFont "Arial".data "".data 10,
      .multiCell 0 5 (clean_text_pdf
        ("Compute: ".data ++ fs.compute ++ "\nStorage: ".data ++ fs.storage
          ++ "\nML: ".data ++ fs.ml_services ++ "\nUI: ".data ++ fs.ui_layer)),
      .ln 5,
      .setFont "Arial".data "B".data 10, .cell 0 6 "2.2 TIMELINES".data,
      .setFont "Arial".data "B".data 9,
      .cell 30 7 "Phase".data, .cell 130 7 "Task".data, .cell 20 7 "Wks".data,
      .setFont "Arial".data "".data 9]
  ++ (fs.final_timeline.map pdf_timeline_row).flatten

/-- The byte artifact of the paginated renderer: `pdf.output(dest='S')`
(`src/agent.py` line 510), modelled from the PyFPDF library's
serialization, which writes the drawn content together with file
metadata that includes a `/CreationDate (D:...)` entry taken from the
current clock (`datetime.now()`).  The artifact is modelled as the
creation-date metadata entry paired with the drawing-command sequence,
so the dependence of the serialized bytes on the clock is explicit. -/
def pdf_output (fs : SowFields) (now : Str) : Str × List PdfOp :=
  ("/CreationDate (D:".data ++ now ++ ")".data, create_pdf fs now)

/-- Left-biased overlay of the phase result over the prior draft. -/
def overlay (a b : Option Json) : Option Json :=
  match a with
  | some v => some v
  | none => b

/-- The endpoint behaves according to the schema predicate `P`: whenever
an attempt is a 200 response whose body parses, whose payload text
extracts, and whose cleaned text `loads` to a value, that value
satisfies `P`.  (This is the black-box contract of the generation
endpoint: its text payload is JSON matching the requested schema.) -/
def respects (loads : Str → Option Json) (P : Json → Prop) : Attempt → Prop
  | .raise => True
  | .resp status body =>
    if status = 200 then
      match body with
      | none => True
      | some result =>
        match extract_text result with
        | .ok t =>
          match loads (clean_json_string t) with
          | some v => P v
          | none => True
        | .error _ => True
    else True


/-- A well-formed endpoint response body whose text payload is `t`. -/
def respBody (t : Str) : Json :=
  .obj [("candidates".data,
    .arr [.obj [("content".data,
      .obj [("parts".data, .arr [.obj [("text".data, .str t)]])])]])]

/-- A response body whose candidates/content/parts structure is present
but whose first part carries no `text` key. -/
def respBodyNoText : Json :=
  .obj [("candidates".data,
    .arr [.obj [("content".data,
      .obj [("parts".data, .arr [.obj []])])]])]

/-- A response body with an empty candidates list (extraction hits
`IndexError`). -/
def emptyCandidatesBody : Json := .obj [("candidates".data, .arr [])]

/-- A network on which every post returns status 200 with body `b`. -/
def netWith (b : Json) : Nat → Attempt := fun _ => .resp 200 (some b)

/-- A network on which every post returns status 500. -/
def net500 : Nat → Attempt := fun _ => .resp 500 none

/-- A network on which every post returns status 200 with a body that is
not valid JSON (so `response.json()` raises). -/
def netBadBody : Nat → Attempt := fun _ => .resp 200 none

/-- A network on which every post raises. -/
def netRaise : Nat → Attempt := fun _ => .raise

/-- The event trace of `n` consecutive failed attempts: each failed
attempt is a post followed by a one-second sleep (including the last). -/
def failTrace : Nat → List Ev
  | 0 => []
  | n + 1 => Ev.post :: Ev.sleep :: failTrace n

/-- A stakeholder whose three fields are each 50 characters long. -/
def s50 : Stakeholder :=
  { name := "Namexxxxxxxxxxxxxxxxxxxxxxxxxxxxxxxxxxxxxxxxxxxxxx".data.take 50
  , title := "Head of Analytics and Machine Learning Platformsxx".data.take 50
  , email := "stakeholder.with.a.very.long.address@example.comxx".data.take 50 }

/-- A concrete finalized field set used as a test fixture. -/
def fs0 : SowFields :=
  { sol_type := "Intelligent Search".data
  , customer_name := "Acme Global".data
  , final_objective := "Improve search accuracy.".data
  , updated_stakeholders := [s50]
  , deps_text := "Access to data\n\nVPN accounts\n".data
  , assump_text := "Data is clean\n".data
  , final_sc_text := "Works\nFast".data
  , final_timeline := [{ phase := "Setup".data, task := "Init".data, weeks := "Wk1".data }]
  , compute := "AWS Lambda".data
  , storage := "Amazon S3".data
  , ml_services := "Amazon Bedrock".data
  , ui_layer := "Streamlit".data
  , ownership := "Funded by AWS".data
  , n_users := 100
  , n_reqs := 5 }

/-! Helper lemmas. -/

theorem dropWhile_append_all {p : Char → Bool} {a b : Str} (h : a.all p = true) :
    (a ++ b).dropWhile p = b.dropWhile p := by
  induction a with
  | nil => rfl
  | cons c a ih =>
    simp only [List.all_cons, Bool.and_eq_true] at h
    simp [List.dropWhile_cons, h.1, ih h.2]

theorem dropWhile_cons_neg {p : Char → Bool} {c : Char} {l : Str} (h : p c = false) :
    (c :: l).dropWhile p = c :: l := by
  simp [List.dropWhile_cons, h]

theorem pyRstrip_append_all {x w : Str} (h : w.all pyIsSpace = true) :
    pyRstrip (x ++ w) = pyRstrip x := by
  unfold pyRstrip
  rw [List.reverse_append, dropWhile_append_all]
  simp only [List.all_eq_true] at h ⊢
  intro c hc
  exact h c (List.mem_reverse.mp hc)

theorem pyRstrip_snoc {l : Str} {c : Char} (h : pyIsSpace c = false) :
    pyRstrip (l ++ [c]) = l ++ [c] := by
  unfold pyRstrip
  rw [List.reverse_append, List.reverse_singleton, List.singleton_append,
    dropWhile_cons_neg h, List.reverse_cons, List.reverse_reverse]

theorem isPrefixOf_append_self : ∀ (p r : Str), p.isPrefixOf (p ++ r) = true
  | [], _ => by simp [List.isPrefixOf]
  | c :: p, r => by simp [List.isPrefixOf, isPrefixOf_append_self p r]

/-- Stripping a whitespace-sandwiched backtick-delimited core leaves the
core: the fence markers themselves are not whitespace. -/
theorem pystrip_sandwich {w₁ w₂ : Str} (inner : Str)
    (h₁ : w₁.all pyIsSpace = true) (h₂ : w₂.all pyIsSpace = true) :
    pystrip (w₁ ++ ('`' :: inner ++ ['`']) ++ w₂) = '`' :: inner ++ ['`'] := by
  unfold pystrip pyLstrip
  have e0 : w₁ ++ ('`' :: inner ++ ['`']) ++ w₂ = w₁ ++ (('`' :: inner ++ ['`']) ++ w₂) := by
    simp [List.append_assoc]
  rw [e0, dropWhile_append_all h₁]
  have e1 : ('`' :: inner ++ ['`']) ++ w₂ = '`' :: (inner ++ ['`'] ++ w₂) := by
    simp [List.append_assoc]
  rw [e1, dropWhile_cons_neg (by decide)]
  have e2 : '`' :: (inner ++ ['`'] ++ w₂) = ('`' :: inner ++ ['`']) ++ w₂ := by
    simp [List.append_assoc]
  rw [e2, pyRstrip_append_all h₂]
  exact pyRstrip_snoc (by decide)

/-- Applying `clean_json_string` to text wrapped in a json-tagged fence with
surrounding whitespace yields the stripped inner text. -/
theorem clean_json_string_json_fence {w₁ w₂ : Str} (mid : Str)
    (h₁ : w₁.all pyIsSpace = true) (h₂ : w₂.all pyIsSpace = true) :
    clean_json_string (w₁ ++ "```json".data ++ mid ++ "```".data ++ w₂) = pystrip mid := by
  have hcore : (("```json".data : Str) ++ mid ++ "```".data)
      = '`' :: ("``json".data ++ mid ++ "``".data) ++ ['`'] := by
    simp [List.append_assoc]
  have hT : w₁ ++ "```json".data ++ mid ++ "```".data ++ w₂
      = w₁ ++ ("```json".data ++ mid ++ "```".data) ++ w₂ := by
    simp [List.append_assoc]
  have hstrip : pystrip (w₁ ++ "```json".data ++ mid ++ "```".data ++ w₂)
      = "```json".data ++ mid ++ "```".data := by
    rw [hT, hcore, pystrip_sandwich _ h₁ h₂]
  have hsw : pyStartsWith ("```json".data ++ mid ++ "```".data) "```json".data = true := by
    unfold pyStartsWith
    have : ("```json".data : Str) ++ mid ++ "```".data
        = "```json".data ++ (mid ++ "```".data) := by simp [List.append_assoc]
    rw [this]
    exact isPrefixOf_append_self _ _
  have hdrop : pyDrop ("```json".data ++ mid ++ "```".data) 7 = mid ++ "```".data := by
    unfold pyDrop
    have : ("```json".data : Str) ++ mid ++ "```".data
        = "```json".data ++ (mid ++ "```".data) := by simp [List.append_assoc]
    rw [this]
    have h7 : (7 : Nat) = ("```json".data : Str).length := by decide
    rw [h7, List.drop_left]
  have hew : pyEndsWith (mid ++ "```".data) "```".data = true := by
    unfold pyEndsWith
    rw [List.reverse_append]
    exact isPrefixOf_append_self _ _
  have hdr : pyDropRight (mid ++ "```".data) 3 = mid := by
    unfold pyDropRight
    rw [List.reverse_append]
    have h3 : (3 : Nat) = (("```".data : Str).reverse).length := by decide
    rw [h3, List.drop_left, List.reverse_reverse]
  unfold clean_json_string cleanLeadingFence cleanTrailingFence
  rw [hstrip, hsw, if_pos rfl, hdrop, hew, if_pos rfl, hdr]

/-- Applying `clean_json_string` to text wrapped in a bare fence with surrounding
whitespace yields the stripped inner text, provided the inner text does
not make the core look json-tagged. -/
theorem clean_json_string_bare_fence {w₁ w₂ : Str} (mid : Str)
    (h₁ : w₁.all pyIsSpace = true) (h₂ : w₂.all pyIsSpace = true)
    (hnj : pyStartsWith ("```".data ++ mid ++ "```".data) "```json".data = false) :
    clean_json_string (w₁ ++ "```".data ++ mid ++ "```".data ++ w₂) = pystrip mid := by
  have hcore : (("```".data : Str) ++ mid ++ "```".data)
      = '`' :: ("``".data ++ mid ++ "``".data) ++ ['`'] := by
    simp [List.append_assoc]
  have hT : w₁ ++ "```".data ++ mid ++ "```".data ++ w₂
      = w₁ ++ ("```".data ++ mid ++ "```".data) ++ w₂ := by
    simp [List.append_assoc]
  have hstrip : pystrip (w₁ ++ "```".data ++ mid ++ "```".data ++ w₂)
      = "```".data ++ mid ++ "```".data := by
    rw [hT, hcore, pystrip_sandwich _ h₁ h₂]
  have hsw : pyStartsWith ("```".data ++ mid ++ "```".data) "```".data = true := by
    unfold pyStartsWith
    have : ("```".data : Str) ++ mid ++ "```".data
        = "```".data ++ (mid ++ "```".data) := by simp [List.append_assoc]
    rw [this]
    exact isPrefixOf_append_self _ _
  have hdrop : pyDrop ("```".data ++ mid ++ "```".data) 3 = mid ++ "```".data := by
    unfold pyDrop
    have : ("```".data : Str) ++ mid ++ "```".data
        = "```".data ++ (mid ++ "```".data) := by simp [List.append_assoc]
    rw [this]
    have h3 : (3 : Nat) = ("```".data : Str).length := by decide
    rw [h3, List.drop_left]
  have hew : pyEndsWith (mid ++ "```".data) "```".data = true := by
    unfold pyEndsWith
    rw [List.reverse_append]
    exact isPrefixOf_append_self _ _
  have hdr : pyDropRight (mid ++ "```".data) 3 = mid := by
    unfold pyDropRight
    rw [List.reverse_append]
    have h3 : (3 : Nat) = (("```".data : Str).reverse).length := by decide
    rw [h3, List.drop_left, List.reverse_reverse]
  unfold clean_json_string cleanLeadingFence cleanTrailingFence
  rw [hstrip, hnj, hsw]
  rw [if_neg (by simp : ¬ false = true), if_pos rfl]
  rw [hdrop, hew, if_pos rfl, hdr]

theorem attemptResult_non200 {loads : Str → Option Json} {st : Nat} {b : Option Json}
    (h : st ≠ 200) : attemptResult loads (.resp st b) = .retry := by
  simp [attemptResult, h]

theorem call_first_attempt_done {loads : Str → Option Json} {key : Str}
    {net : Nat → Attempt} {r : Option Json} (hkey : key ≠ [])
    (h : attemptResult loads (net 0) = .done r) :
    call_gemini_json loads key net = (r, [Ev.post]) := by
  unfold call_gemini_json
  rw [if_neg hkey]
  show runAttempts loads net 0 (2 + 1) = _
  simp [runAttempts, h]

theorem runAttempts_retry {loads : Str → Option Json} {net : Nat → Attempt}
    {i fuel : Nat} (h : attemptResult loads (net i) = .retry) :
    runAttempts loads net i (fuel + 1)
      = ((runAttempts loads net (i + 1) fuel).1,
         Ev.post :: Ev.sleep :: (runAttempts loads net (i + 1) fuel).2) := by
  simp [runAttempts, h]

theorem respects_done {loads : Str → Option Json} {P : Json → Prop} {a : Attempt}
    {v : Json} (hresp : respects loads P a)
    (hA : attemptResult loads a = .done (some v)) : P v := by
  cases a with
  | raise => simp [attemptResult] at hA
  | resp st b =>
    by_cases hst : st = 200
    · subst hst
      cases b with
      | none => simp [attemptResult] at hA
      | some j =>
        cases hext : extract_text j with
        | error e =>
          cases e <;> simp [attemptResult, hext] at hA
        | ok t =>
          cases hl : loads (clean_json_string t) with
          | none => simp [attemptResult, hext, hl] at hA
          | some w =>
            simp [attemptResult, hext, hl] at hA
            simp [respects, hext, hl] at hresp
            rw [← hA]
            exact hresp
    · rw [attemptResult_non200 hst] at hA
      cases hA

theorem runAttempts_sound {loads : Str → Option Json} {net : Nat → Attempt}
    {P : Json → Prop} (hend : ∀ i, respects loads P (net i)) :
    ∀ (fuel i : Nat), (runAttempts loads net i fuel).1 = none
      ∨ ∃ v, (runAttempts loads net i fuel).1 = some v ∧ P v
  | 0, _ => Or.inl rfl
  | fuel + 1, i => by
    cases hA : attemptResult loads (net i) with
    | done r =>
      cases r with
      | none => left; simp [runAttempts, hA]
      | some v =>
        right
        exact ⟨v, by simp [runAttempts, hA], respects_done (hend i) hA⟩
    | retry =>
      rw [runAttempts_retry hA]
      exact runAttempts_sound hend fuel (i + 1)

/-- First-match lookup of an absent key is `none`. -/
theorem dictGet_eq_none_of_not_mem : ∀ (d : Dict) (k : Str),
    k ∉ d.map Prod.fst → dictGet d k = none
  | [], _, _ => rfl
  | (k0, _) :: rest, k, h => by
    simp only [List.map_cons, List.mem_cons, not_or] at h
    simp [dictGet, h.1, dictGet_eq_none_of_not_mem rest k h.2]

/-- Assignment followed by lookup of the same key. -/
theorem dictGet_insert_self : ∀ (d : Dict) (k : Str) (v : Json),
    dictGet (dictInsert d k v) k = some v
  | [], k, v => by simp [dictInsert, dictGet]
  | (k0, v0) :: rest, k, v => by
    by_cases h : k = k0
    · subst h; simp [dictInsert, dictGet]
    · simp [dictInsert, dictGet, h, dictGet_insert_self rest k v]

/-- Assignment does not disturb other keys. -/
theorem dictGet_insert_ne : ∀ (d : Dict) (k : Str) (v : Json) (k' : Str),
    k' ≠ k → dictGet (dictInsert d k v) k' = dictGet d k'
  | [], k, v, k', h => by simp [dictInsert, dictGet, h]
  | (k0, v0) :: rest, k, v, k', h => by
    by_cases hk : k = k0
    · subst hk
      simp [dictInsert, dictGet, h]
    · by_cases hk' : k' = k0
      · subst hk'
        simp [dictInsert, dictGet, hk]
      · simp [dictInsert, dictGet, hk, hk', dictGet_insert_ne rest k v k' h]

/-- Python `dict.update` is a shallow per-key overwrite: a key of the source
takes the source's value, every other key keeps its prior value. -/
theorem dictGet_dictUpdate : ∀ (fs : List (Str × Json)) (d : Dict) (k : Str),
    keysNodup fs →
    dictGet (dictUpdate d fs) k = overlay (dictGet fs k) (dictGet d k)
  | [], _, _, _ => rfl
  | (k0, v0) :: rest, d, k, h => by
    have hx := List.nodup_cons.mp h
    have hmem : k0 ∉ rest.map Prod.fst := hx.1
    have hnd : keysNodup rest := hx.2
    show dictGet (dictUpdate (dictInsert d k0 v0) rest) k
      = overlay (dictGet ((k0, v0) :: rest) k) (dictGet d k)
    rw [dictGet_dictUpdate rest (dictInsert d k0 v0) k hnd]
    by_cases hk : k = k0
    · subst hk
      rw [dictGet_eq_none_of_not_mem rest k hmem, dictGet_insert_self]
      simp [dictGet, overlay]
    · rw [dictGet_insert_ne d k0 v0 k hk]
      simp [dictGet, hk]

/-- A phase that produced nothing leaves both the running draft and the
committed store untouched. -/
theorem runPhases_append_none (init : Dict) (rs : List (Option Json)) :
    runPhases init (rs ++ [none]) = runPhases init rs := by
  unfold runPhases
  rw [List.foldl_append]
  rfl

theorem flatten_parts {l : List Str} {x : Str} (h : x ∈ l) :
    ∃ a b, a ++ (x ++ b) = l.flatten := by
  induction l with
  | nil => cases h
  | cons y rest ih =>
    rcases List.mem_cons.mp h with e | hm
    · subst e
      exact ⟨[], rest.flatten, rfl⟩
    · obtain ⟨a, b, hab⟩ := ih hm
      exact ⟨y ++ a, b, by rw [List.append_assoc, hab, List.flatten_cons]⟩

theorem exists_around_flatten {l : List Str} {x : Str} (hx : x ∈ l) {y : Str}
    (h : ∃ a b, a ++ (y ++ b) = x) : ∃ a b, a ++ (y ++ b) = l.flatten := by
  obtain ⟨a0, b0, h0⟩ := flatten_parts hx
  obtain ⟨a1, b1, h1⟩ := h
  refine ⟨a0 ++ a1, b1 ++ b0, ?_⟩
  rw [← h0, ← h1]
  simp [List.append_assoc]

theorem mem_map_flatten {α β : Type} {f : α → List β} {l : List α} {a : α} {b : β}
    (ha : a ∈ l) (hb : b ∈ f a) : b ∈ (l.map f).flatten := by
  rw [List.mem_flatten]
  exact ⟨f a, List.mem_map_of_mem f ha, hb⟩

theorem clean_text_pdf_length (t : Str) : (clean_text_pdf t).length = t.length := by
  unfold clean_text_pdf
  exact List.length_map t _

theorem substituteChar_eq {c : Char} (h : c.toNat ≤ 255) : substituteChar c = c := by
  unfold substituteChar
  split_ifs with e1 e2 e3 e4 e5 e6 e7 e8
  · subst e1; exact absurd h (by decide)
  · subst e2; exact absurd h (by decide)
  · subst e3; exact absurd h (by decide)
  · subst e4; exact absurd h (by decide)
  · subst e5; exact absurd h (by decide)
  · subst e6; exact absurd h (by decide)
  · subst e7; exact absurd h (by decide)
  · subst e8; exact absurd h (by decide)
  · rfl

theorem clean_text_pdf_latin1 : ∀ (t : Str), (∀ c ∈ t, c.toNat ≤ 255) →
    clean_text_pdf t = t
  | [], _ => rfl
  | c :: t, h => by
    have hc : c.toNat ≤ 255 := h c (List.mem_cons_self c t)
    show (latin1Replace (substituteChar c)) :: clean_text_pdf t = c :: t
    rw [substituteChar_eq hc]
    rw [show latin1Replace c = c from by simp [latin1Replace, hc]]
    rw [clean_text_pdf_latin1 t (fun c' h' => h c' (List.mem_cons_of_mem c h'))]

theorem runAttempts_all_retry {loads : Str → Option Json} {net : Nat → Attempt} :
    ∀ (fuel i : Nat), (∀ j, j < fuel → attemptResult loads (net (i + j)) = .retry) →
    runAttempts loads net i fuel = (none, failTrace fuel)
  | 0, _, _ => rfl
  | fuel + 1, i, h => by
    rw [runAttempts_retry (by simpa using h 0 (Nat.succ_pos _))]
    rw [runAttempts_all_retry fuel (i + 1) (fun j hj => by
      have hx := h (j + 1) (by omega)
      rw [show i + 1 + j = i + (j + 1) from by omega]
      exact hx)]
    rfl

/-- C1: for every call to the structured generation client, if the
endpoint honours its schema contract (every 200-response payload that
parses satisfies the schema predicate `P`), the value returned is either
absence (`none`) or a successfully parsed JSON value satisfying `P`;
no partial or malformed parse is ever returned. -/
theorem C1_generation_result_schema (loads : Str → Option Json) (key : Str)
    (net : Nat → Attempt) (P : Json → Prop)
    (hend : ∀ i, respects loads P (net i)) :
    (call_gemini_json loads key net).1 = none
      ∨ ∃ v, (call_gemini_json loads key net).1 = some v ∧ P v := by
  unfold call_gemini_json
  by_cases hkey : key = []
  · rw [if_pos hkey]; exact Or.inl rfl
  · rw [if_neg hkey]; exact runAttempts_sound hend 3 0

/-- Witness for C1 at a concrete run: a 200 response carrying the text
payload (an objective object) yields a result that is absent or a JSON
object. -/
theorem C1_witness :
    (call_gemini_json jsonLoads "k".data
        (netWith (respBody "\x7b\"objective\": \"x\"\x7d".data))).1 = none
      ∨ ∃ v, (call_gemini_json jsonLoads "k".data
          (netWith (respBody "\x7b\"objective\": \"x\"\x7d".data))).1 = some v
          ∧ isObj v = true :=
  C1_generation_result_schema jsonLoads "k".data _ (fun v => isObj v = true)
    (fun _ => rfl)

/-- C3: when every attempt fails with a non-success transport/status
outcome, the client makes exactly 3 attempts with a one-second sleep
after each failed attempt (in particular exactly 2 delays intervene
between consecutive attempts, plus one trailing delay after the last)
and returns absence. -/
theorem C3_retry_exhaustion (loads : Str → Option Json) (key : Str)
    (net : Nat → Attempt) (hkey : key ≠ [])
    (h : ∀ i, i < 3 → net i = .raise ∨ ∃ st b, net i = .resp st b ∧ st ≠ 200) :
    call_gemini_json loads key net
      = (none, [Ev.post, Ev.sleep, Ev.post, Ev.sleep, Ev.post, Ev.sleep]) := by
  have ha : ∀ j, j < 3 → attemptResult loads (net (0 + j)) = .retry := by
    intro j hj
    rcases h j (by omega) with e | ⟨st, b, e, hst⟩
    · rw [show (0 + j) = j from by omega, e]; rfl
    · rw [show (0 + j) = j from by omega, e]; exact attemptResult_non200 hst
  unfold call_gemini_json
  rw [if_neg hkey]
  rw [runAttempts_all_retry 3 0 ha]
  rfl

/-- Witness for C3: a key and a network that returns 500 on each of the
three attempts. -/
theorem C3_witness :
    call_gemini_json jsonLoads "k".data net500
      = (none, [Ev.post, Ev.sleep, Ev.post, Ev.sleep, Ev.post, Ev.sleep]) :=
  C3_retry_exhaustion jsonLoads "k".data net500 (by decide)
    (fun i _ => Or.inr ⟨500, none, rfl, by omega⟩)

/-- C5: with an empty resolved credential (explicit input and both
environment fallbacks empty), the client returns absence immediately:
no post is issued and no sleep happens (the event trace is empty). -/
theorem C5_empty_credential (loads : Str → Option Json) (net : Nat → Attempt)
    (inp g e : Str) (h : resolve_api_key inp g e = []) :
    call_gemini_json loads (resolve_api_key inp g e) net = (none, []) := by
  rw [h]
  unfold call_gemini_json
  rw [if_pos rfl]

/-- Witness for C5: all three credential sources empty. -/
theorem C5_witness :
    call_gemini_json jsonLoads (resolve_api_key [] [] []) netRaise = (none, []) :=
  C5_empty_credential jsonLoads netRaise [] [] [] rfl

/-- C4 (amended): a 200 response whose parsed body fails extraction with
`IndexError`, or whose extracted text fails to parse as JSON, makes the
client return absence immediately after that single attempt, with no
retry and no exception. -/
theorem C4_no_retry_on_parse_failure (loads : Str → Option Json) (key : Str)
    (net : Nat → Attempt) (j : Json) (hkey : key ≠ [])
    (hnet : net 0 = .resp 200 (some j))
    (h : extract_text j = .error .indexError
       ∨ ∃ t, extract_text j = .ok t ∧ loads (clean_json_string t) = none) :
    call_gemini_json loads key net = (none, [Ev.post]) := by
  apply call_first_attempt_done hkey
  rw [hnet]
  rcases h with h | ⟨t, ht, hl⟩
  · simp [attemptResult, h]
  · simp [attemptResult, ht, hl]

/-- Witness for C4 (amended): a body with an empty candidates list. -/
theorem C4_witness :
    call_gemini_json jsonLoads "k".data (netWith emptyCandidatesBody) = (none, [Ev.post]) :=
  C4_no_retry_on_parse_failure jsonLoads "k".data _ emptyCandidatesBody
    (by decide) rfl (Or.inl rfl)

/-- Counterexample to C4 as stated: a 200 response with a malformed
payload (a body that is not valid JSON, so `response.json()` raises) is
retried — the trace shows three posts with sleeps, not an immediate
single-attempt return of absence. -/
theorem C4_counterexample :
    call_gemini_json jsonLoads "k".data netBadBody
      = (none, [Ev.post, Ev.sleep, Ev.post, Ev.sleep, Ev.post, Ev.sleep])
    ∧ (call_gemini_json jsonLoads "k".data netBadBody).2.count Ev.post = 3 :=
  ⟨rfl, rfl⟩

/-- C10: a 200 response whose candidates/content/parts structure is
present but carries no `text` key makes the client substitute the
default payload and return the empty object (not absence); the
orchestrator's truthiness test treats that value as a failed phase and
leaves draft and store unchanged. -/
theorem C10_default_empty_object :
    call_gemini_json jsonLoads "k".data (netWith respBodyNoText)
        = (some (Json.obj []), [Ev.post])
    ∧ pyTruthy (some (Json.obj [])) = false
    ∧ phaseStep ([("objective".data, Json.str "A".data)],
          [("objective".data, Json.str "A".data)]) (some (Json.obj []))
        = ([("objective".data, Json.str "A".data)],
           [("objective".data, Json.str "A".data)])
    ∧ some (Json.obj []) ≠ (none : Option Json) :=
  ⟨rfl, rfl, rfl, fun h => Option.noConfusion h⟩

/-- C2: the URL string the client posts to is not a well-formed https
URL of the intended form — the base URL was pasted wrapped in a markdown
link, so the string starts with a bracket, differs from the intended
URL, and the intended URL (modelled from the spec) is the https one. -/
theorem C2_url_malformed :
    pyStartsWith (url "k".data) "https://".data = false
    ∧ url "k".data ≠ spec_url "k".data
    ∧ pyStartsWith (spec_url "k".data) "https://".data = true :=
  ⟨by decide, by decide, by decide⟩

/-- C7: merging a phase result is a shallow per-top-level-key overwrite
(keys the phase produced are fully replaced, all others keep their prior
value); a phase that produced nothing changes neither the running draft
nor the committed store (no rollback of earlier phases); and the
spec's example merge holds. -/
theorem C7_shallow_merge_commit :
    (∀ (d : Dict) (fs : List (Str × Json)), keysNodup fs → ∀ k : Str,
        dictGet (dictUpdate d fs) k = overlay (dictGet fs k) (dictGet d k))
    ∧ (∀ (init : Dict) (rs : List (Option Json)),
        runPhases init (rs ++ [none]) = runPhases init rs)
    ∧ dictUpdate [("objective".data, Json.str "A".data)]
        [("stakeholders".data, Json.arr [Json.obj [("name".data, Json.str "N".data)]])]
        = [("objective".data, Json.str "A".data),
           ("stakeholders".data, Json.arr [Json.obj [("name".data, Json.str "N".data)]])] :=
  ⟨fun d fs h k => dictGet_dictUpdate fs d k h, runPhases_append_none, rfl⟩

/-- Witness for C7: the per-key overwrite law at a concrete draft,
phase result and key. -/
theorem C7_witness :
    dictGet (dictUpdate [("objective".data, Json.str "A".data)]
        [("stakeholders".data, Json.str "S".data)]) "objective".data
      = overlay (dictGet [("stakeholders".data, Json.str "S".data)] "objective".data)
          (dictGet [("objective".data, Json.str "A".data)] "objective".data) :=
  C7_shallow_merge_commit.1 _ _ (by decide) _

theorem exists_around_wrap {y m : Str} (h : ∃ a b, a ++ (y ++ b) = m) (P Q : Str) :
    ∃ a b, a ++ (y ++ b) = P ++ (m ++ Q) := by
  obtain ⟨a, b, hab⟩ := h
  exact ⟨P ++ a, b ++ Q, by rw [← hab]; simp [List.append_assoc]⟩

/-- C6: the fence-stripping step removes exactly the leading and
trailing fence markers and surrounding whitespace (for a json-tagged
fence, a bare fence, and unfenced text), and the client returns exactly
the JSON value that the cleaned inner text denotes under `loads`. -/
theorem C6_fence_strip_roundtrip :
    (∀ w₁ w₂ mid : Str, w₁.all pyIsSpace = true → w₂.all pyIsSpace = true →
        clean_json_string (w₁ ++ "```json".data ++ mid ++ "```".data ++ w₂) = pystrip mid)
    ∧ (∀ w₁ w₂ mid : Str, w₁.all pyIsSpace = true → w₂.all pyIsSpace = true →
        pyStartsWith ("```".data ++ mid ++ "```".data) "```json".data = false →
        clean_json_string (w₁ ++ "```".data ++ mid ++ "```".data ++ w₂) = pystrip mid)
    ∧ (∀ t : Str, pystrip t = t → pyStartsWith t "```json".data = false →
        pyStartsWith t "```".data = false → pyEndsWith t "```".data = false →
        clean_json_string t = t)
    ∧ (∀ (loads : Str → Option Json) (key : Str) (net : Nat → Attempt)
        (j : Json) (t : Str) (v : Json), key ≠ [] →
        net 0 = .resp 200 (some j) → extract_text j = .ok t →
        loads (clean_json_string t) = some v →
        call_gemini_json loads key net = (some v, [Ev.post])) := by
  refine ⟨fun w₁ w₂ mid h₁ h₂ => clean_json_string_json_fence mid h₁ h₂,
    fun w₁ w₂ mid h₁ h₂ hnj => clean_json_string_bare_fence mid h₁ h₂ hnj,
    fun t ht h1 h2 h3 => ?_,
    fun loads key net j t v hkey hnet hext hl => ?_⟩
  · unfold clean_json_string cleanLeadingFence cleanTrailingFence
    rw [ht, h1, h2]
    simp only [Bool.false_eq_true, if_false]
    rw [h3]
    simp [Bool.false_eq_true, ht]
  · apply call_first_attempt_done hkey
    rw [hnet]
    simp [attemptResult, hext, hl]

/-- Witness for C6: a concrete json-fenced payload is stripped to its
inner JSON text and round-trips through the client into the denoted
object. -/
theorem C6_witness :
    clean_json_string (" ".data ++ "```json".data ++ "\n\x7b\"a\": 1\x7d\n".data
        ++ "```".data ++ "\n".data)
      = pystrip "\n\x7b\"a\": 1\x7d\n".data
    ∧ call_gemini_json jsonLoads "k".data
        (netWith (respBody "```json\n\x7b\"a\": 1\x7d\n```".data))
      = (some (Json.obj [("a".data, Json.num 1)]), [Ev.post]) :=
  ⟨C6_fence_strip_roundtrip.1 " ".data "\n".data _ (by decide) (by decide),
   C6_fence_strip_roundtrip.2.2.2 jsonLoads "k".data _
     (respBody "```json\n\x7b\"a\": 1\x7d\n```".data)
     "```json\n\x7b\"a\": 1\x7d\n```".data _ (by decide) rfl rfl rfl⟩

/-- C8: a stakeholder field longer than 35 characters is emitted by the
paginated renderer as a cell built from exactly its first 35 characters
(normalized; of length exactly 35, and verbatim when the field is within
the single-byte range), while the markup renderer emits the same field
whole, untruncated, inside its output. -/
theorem C8_truncation (fs : SowFields) (today : Str) (s : Stakeholder)
    (hs : s ∈ fs.updated_stakeholders)
    (hn : 35 < s.name.length) (ht : 35 < s.title.length) (he : 35 < s.email.length) :
    (PdfOp.cell 60 7 (clean_text_pdf (pyTake s.name 35)) ∈ create_pdf fs today
      ∧ PdfOp.cell 60 7 (clean_text_pdf (pyTake s.title 35)) ∈ create_pdf fs today
      ∧ PdfOp.cell 60 7 (clean_text_pdf (pyTake s.email 35)) ∈ create_pdf fs today)
    ∧ ((clean_text_pdf (pyTake s.name 35)).length = 35
      ∧ (clean_text_pdf (pyTake s.title 35)).length = 35
      ∧ (clean_text_pdf (pyTake s.email 35)).length = 35)
    ∧ ((∀ c ∈ s.title, c.toNat ≤ 255) →
        clean_text_pdf (pyTake s.title 35) = pyTake s.title 35)
    ∧ ((∃ a b, a ++ (s.name ++ b) = html_content fs today)
      ∧ (∃ a b, a ++ (s.title ++ b) = html_content fs today)
      ∧ (∃ a b, a ++ (s.email ++ b) = html_content fs today)) := by
  have hmem : ∀ op ∈ pdf_stakeholder_row s, op ∈ create_pdf fs today := by
    intro op hop
    unfold create_pdf
    refine List.mem_append_left _ (List.mem_append_left _ (List.mem_append_right _ ?_))
    exact List.mem_flatten.mpr ⟨_, List.mem_map_of_mem _ hs, hop⟩
  have hlen : ∀ (t : Str), 35 < t.length → (clean_text_pdf (pyTake t 35)).length = 35 := by
    intro t h
    rw [clean_text_pdf_length]
    unfold pyTake
    rw [List.length_take]
    omega
  have hfactor : html_content fs today
      = (htmlC1 ++ fs.sol_type ++ htmlC2 ++ fs.customer_name ++ htmlC3 ++ today ++ htmlC4
          ++ fs.final_objective ++ htmlC5)
        ++ ((fs.updated_stakeholders.map html_stakeholder_row).flatten
          ++ (htmlC6 ++ bulletItems fs.deps_text ++ htmlC7 ++ bulletItems fs.assump_text
              ++ htmlC8 ++ scHtml fs.final_sc_text ++ htmlC9
              ++ (fs.final_timeline.map html_timeline_row).flatten ++ htmlC10
              ++ fs.compute ++ htmlC11 ++ fs.storage ++ htmlC12 ++ fs.ml_services ++ htmlC13
              ++ fs.ui_layer ++ htmlC14 ++ fs.ownership ++ htmlC15 ++ intStr fs.n_users
              ++ htmlC16 ++ intStr fs.n_reqs ++ htmlC17)) := by
    simp [html_content, List.append_assoc]
  have hname : ∃ a b, a ++ (s.name ++ b) = html_stakeholder_row s :=
    ⟨"<tr><td>".data,
     "</td><td>".data ++ s.title ++ "</td><td>".data ++ s.email ++ "</td></tr>".data,
     by simp [html_stakeholder_row, List.append_assoc]⟩
  have htitle : ∃ a b, a ++ (s.title ++ b) = html_stakeholder_row s :=
    ⟨"<tr><td>".data ++ s.name ++ "</td><td>".data,
     "</td><td>".data ++ s.email ++ "</td></tr>".data,
     by simp [html_stakeholder_row, List.append_assoc]⟩
  have hemail : ∃ a b, a ++ (s.email ++ b) = html_stakeholder_row s :=
    ⟨"<tr><td>".data ++ s.name ++ "</td><td>".data ++ s.title ++ "</td><td>".data,
     "</td></tr>".data,
     by simp [html_stakeholder_row, List.append_assoc]⟩
  have hmemmap := List.mem_map_of_mem html_stakeholder_row hs
  refine ⟨⟨hmem _ (by simp [pdf_stakeholder_row]), hmem _ (by simp [pdf_stakeholder_row]),
      hmem _ (by simp [pdf_stakeholder_row])⟩,
    ⟨hlen _ hn, hlen _ ht, hlen _ he⟩,
    fun hlat => clean_text_pdf_latin1 _
      (fun c hc => hlat c (List.take_subset 35 s.title hc)),
    ?_, ?_, ?_⟩
  · rw [hfactor]
    exact exists_around_wrap (exists_around_flatten hmemmap hname) _ _
  · rw [hfactor]
    exact exists_around_wrap (exists_around_flatten hmemmap htitle) _ _
  · rw [hfactor]
    exact exists_around_wrap (exists_around_flatten hmemmap hemail) _ _

/-- Witness for C8: the 50-character stakeholder of the fixture field
set, rendered on a concrete date. -/
theorem C8_witness :
    35 < s50.title.length
    ∧ ((clean_text_pdf (pyTake s50.title 35)).length = 35
      ∧ PdfOp.cell 60 7 (clean_text_pdf (pyTake s50.title 35))
          ∈ create_pdf fs0 "2026-10-12".data
      ∧ ∃ a b, a ++ (s50.title ++ b) = html_content fs0 "2026-10-12".data) :=
  ⟨by decide,
   (C8_truncation fs0 "2026-10-12".data s50 (List.mem_cons_self s50 [])
       (by decide) (by decide) (by decide)).2.1.2.1,
   (C8_truncation fs0 "2026-10-12".data s50 (List.mem_cons_self s50 [])
       (by decide) (by decide) (by decide)).1.2.1,
   (C8_truncation fs0 "2026-10-12".data s50 (List.mem_cons_self s50 [])
       (by decide) (by decide) (by decide)).2.2.2.2.1⟩

/-- C9 (amended): each renderer is a deterministic function of the
field set and the ambient clock reading — two renders with the same
field set at the same instant produce identical output — but neither is
a pure function of the field set and formatting options alone: the
markup renderer embeds the render date (see the counterexample), and
the paginated renderer's byte artifact embeds a creation timestamp, so
paginated artifacts produced at different instants also differ, even
though the drawn content (the drawing-command sequence) depends only on
the field set. -/
theorem C9_renderers_deterministic (fs : SowFields) (now now' : Str) :
    (html_content fs now = html_content fs now
      ∧ pdf_output fs now = pdf_output fs now)
    ∧ (pdf_output fs now).2 = (pdf_output fs now').2
    ∧ (now ≠ now' → pdf_output fs now ≠ pdf_output fs now') := by
  refine ⟨⟨rfl, rfl⟩, rfl, fun hne heq => hne ?_⟩
  unfold pdf_output at heq
  rw [Prod.mk.injEq] at heq
  have h2 := List.append_cancel_right heq.1
  exact List.append_cancel_left h2

/-- Witness for C9 (amended): at two concrete distinct dates, the
paginated byte artifacts of the fixture field set differ. -/
theorem C9_witness :
    ("2026-10-12".data : Str) ≠ "2026-10-13".data
    ∧ pdf_output fs0 "2026-10-12".data ≠ pdf_output fs0 "2026-10-13".data :=
  ⟨by decide,
   (C9_renderers_deterministic fs0 "2026-10-12".data "2026-10-13".data).2.2 (by decide)⟩

/-- Counterexample to C9 as stated: the markup renderer embeds
`datetime.now()`, so rendering the same finalized field set at two
different dates produces different bytes — it is not a pure function of
the field set and formatting options alone. -/
theorem C9_counterexample :
    html_content fs0 "2026-10-12".data ≠ html_content fs0 "2026-10-13".data := by
  intro h
  simp only [html_content, List.append_assoc] at h
  have h1 := List.append_cancel_left h
  have h2 := List.append_cancel_left h1
  have h3 := List.append_cancel_left h2
  have h4 := List.append_cancel_left h3
  have h5 := List.append_cancel_left h4
  have h6 := List.append_cancel_right h5
  exact absurd h6 (by decide)
